import Mathlib

/-!
# rotrail: the `POST /getUserData` relay of `server.js`

A shallow embedding of the request path of `server.js`: the `checkAuth`
middleware (lines 34-40), the route handler (lines 45-69) and the way Express
chains them.  Every effect the code performs at its boundary (writing the HTTP
response, calling `next`, calling `get()` on a Firestore reference, calling
`console.error`, letting an exception escape) is recorded, in program order, as
an `Event`; a run of the code is the list of events it produces.
-/

namespace Rotrail

/-! ## JavaScript values -/

/-- A JavaScript number (an IEEE-754 double) by sign, mantissa and exponent.
Only its truthiness is ever inspected by `server.js`. -/
inductive JSNumber where
  | nan
  | infinity (negative : Bool)
  | finite (negative : Bool) (mantissa : Nat) (exponent : Int)
  deriving DecidableEq, Repr

/-- The values that can reach the handler: what `express.json()` puts in a
request body and what a Firestore document holds, plus `undefined`. -/
inductive JSValue where
  | undefined
  | null
  | bool (b : Bool)
  | number (n : JSNumber)
  | string (s : String)
  | array (items : List JSValue)
  | object (fields : List (String × JSValue))

/-- The members of a plain object, as key/value pairs. -/
abbrev Fields := List (String × JSValue)

/-- The `ToBoolean` conversion of a number: `NaN`, `+0` and `-0` are falsy. -/
def JSNumber.truthy : JSNumber → Bool
  | .nan => false
  | .infinity _ => true
  | .finite _ mantissa _ => mantissa != 0

/-- The `ToBoolean` conversion, which is what `!v` and `v || d` test. -/
def JSValue.truthy : JSValue → Bool
  | .undefined => false
  | .null => false
  | .bool b => b
  | .number n => n.truthy
  | .string s => s != ""
  | .array _ => true
  | .object _ => true

/-- The read `o.key` on a plain object whose members are `fields`: the member,
or `undefined` when there is none. -/
def getField (fields : Fields) (key : String) : JSValue :=
  (fields.lookup key).getD .undefined

/-- The `TypeError` the engine throws on a property read of `undefined` or
`null`. -/
def typeError : JSValue :=
  .object [("name", .string "TypeError")]

/-- The read `v.key` on any value, for a key that no built-in prototype defines
(`uid`, `subscriptionStatus`), which is also what the destructuring
`const { key } = v` does: a throw on `undefined` and `null`, the member on an
object, `undefined` on anything else. -/
def getProp (v : JSValue) (key : String) : Except JSValue JSValue :=
  match v with
  | .undefined => .error typeError
  | .null => .error typeError
  | .object fields => .ok (getField fields key)
  | _ => .ok .undefined

/-! ## The environment of the handler -/

/-- The part of `process.env` the request path reads.  An unset variable reads
as `undefined`, here `none`. -/
structure ProcessEnv where
  WORKER_SECRET : Option String

/-- An incoming request as the middleware sees it: `req.headers` (Node has
already lower-cased the names; a missing header reads as `undefined`, here
`none`) and `req.body`, whatever `express.json()` (line 26, run before the
route) left there: the parsed JSON value, or `undefined` where the parser
leaves the property unset for a request it did not parse. -/
structure Request where
  headers : List (String × String)
  body : JSValue

/-- What `await ref.get()` hands back: the `exists` flag and the result of
`data()`. -/
structure DocumentSnapshot where
  «exists» : Bool
  data : JSValue

/-- How `await ref.get()` ends: it throws or rejects with some value, or it
resolves to a snapshot. -/
inductive ReadOutcome where
  | rejected (error : JSValue)
  | resolved (snapshot : DocumentSnapshot)

/-- The Firestore client `db`, as far as the handler uses it, in the two steps
of line 53.  Building the reference, `db.collection(c).doc(d)`, touches no
record and either returns or throws: `docThrows c d` is what it throws, when it
throws.  Calling `.get()` on the reference built is the read: `get c d` is how
it ends. -/
structure Firestore where
  docThrows : String → JSValue → Option JSValue
  get : String → JSValue → ReadOutcome

/-- The operations of a Firestore document reference. -/
inductive StoreOp where
  | get
  | set (data : Fields)
  | delete

/-- One effect of the request path at its boundary: a call of `next`, a
response written, an operation called on the document reference
`db.collection(collection).doc(doc)`, a call of `console.error`, or an
exception that leaves the handler uncaught (the promise of the `async` handler
rejects, and what becomes of the request is up to Express). -/
inductive Event where
  | next
  | respond (status : Nat) (body : JSValue)
  | store (collection : String) (doc : JSValue) (op : StoreOp)
  | consoleError (args : List JSValue)
  | uncaught (error : JSValue)

/-- The error envelope of `server.js`, the literal
`{ status: 'error', message: ... }` handed to `res.json`. -/
def errorEnvelope (message : String) : JSValue :=
  .object [("status", .string "error"), ("message", .string message)]

/-! ## The code -/

/-- Lines 34-40 of `server.js`:
`const secret = req.headers['x-secret-key'];`
`if (secret !== process.env.WORKER_SECRET) return res.status(403).json(...);`
`next();` -/
def checkAuth (env : ProcessEnv) (req : Request) : List Event :=
  let secret := req.headers.lookup "x-secret-key"
  if secret ≠ env.WORKER_SECRET then
    [.respond 403 (errorEnvelope "Forbidden")]
  else
    [.next]

/-- The `catch (error)` block, lines 65-68. -/
def catchBlock (error : JSValue) : List Event :=
  [.consoleError [.string "Firestore Error:", error],
   .respond 500 (errorEnvelope "Internal Server Error")]

/-- Lines 52-64 of `server.js`, the body of the `try` block once
`db.collection('users').doc(uid)` has returned a reference: `get()` is called
on it and the response follows its outcome. -/
def readAndRespond (db : Firestore) (uid : JSValue) : List Event :=
  .store "users" uid .get ::
    match db.get "users" uid with
    | .rejected error => catchBlock error
    | .resolved userDoc =>
      if !userDoc.exists then
        [.respond 404 (errorEnvelope "User data not found in Firestore.")]
      else
        match getProp userDoc.data "subscriptionStatus" with
        | .error error => catchBlock error
        | .ok subscriptionStatus =>
          [.respond 200 (.object
            [("status", .string "success"),
             ("subscriptionStatus",
               if subscriptionStatus.truthy then subscriptionStatus else .string "Free")])]

/-- Lines 45-69 of `server.js`, the body of the route handler.  The
destructuring of line 46 stands before the `try`, so what it throws escapes
the handler; `collection('users').doc(uid)` of line 53 stands inside it, so
what it throws reaches the `catch` block, and `get()` is then never called. -/
def getUserData (db : Firestore) (req : Request) : List Event :=
  match getProp req.body "uid" with
  | .error error => [.uncaught error]
  | .ok uid =>
    if !uid.truthy then
      [.respond 400 (errorEnvelope "User ID (uid) is required.")]
    else
      match db.docThrows "users" uid with
      | some error => catchBlock error
      | none => readAndRespond db uid

/-- Whether an event is a call of `next`. -/
def Event.isNext : Event → Bool
  | .next => true
  | _ => false

/-- Line 45, `app.post('/getUserData', checkAuth, handler)`: Express runs
`checkAuth` and runs the handler only if `checkAuth` called `next`. -/
def postGetUserData (env : ProcessEnv) (db : Firestore) (req : Request) : List Event :=
  let gate := checkAuth env req
  if gate.any Event.isNext then gate ++ getUserData db req else gate

/-! ## Observations on a run -/

/-- The responses written during a run, as (HTTP code, JSON payload). -/
def responses : List Event → List (Nat × JSValue)
  | [] => []
  | .respond status body :: rest => (status, body) :: responses rest
  | _ :: rest => responses rest

/-- The operations called on document references during a run. -/
def storeCalls : List Event → List (String × JSValue × StoreOp)
  | [] => []
  | .store collection doc op :: rest => (collection, doc, op) :: storeCalls rest
  | _ :: rest => storeCalls rest

/-- The arguments of the `console.error` calls made during a run. -/
def logged : List Event → List (List JSValue)
  | [] => []
  | .consoleError args :: rest => args :: logged rest
  | _ :: rest => logged rest

/-- How many times `next` was called during a run. -/
def nextCalls (run : List Event) : Nat :=
  run.countP Event.isNext

/-- Whether a JSON payload is an object with a member named `key`. -/
def hasOwnProperty (v : JSValue) (key : String) : Bool :=
  match v with
  | .object fields => (fields.lookup key).isSome
  | _ => false

/-! ## The store behind the client -/

/-- The records a store holds, by collection name and document id. -/
abbrev Documents := String → String → Option Fields

/-- The error the client throws at a key that is no document id. -/
def invalidPath : JSValue :=
  .object [("name", .string "Error")]

/-- Modelled from the spec: the external document-store client (the
`firebase-admin` library, no part of this repository), "providing keyed
point-read by collection name and document id, returning existence flag + field
map", over the records `docs`.  A read attempt may also fail for reasons that
are no property of the records ("connectivity, permission, malformed
credentials"): `fault`, when present, is the error this attempt fails with.  A
key that is not a string is no document id: no reference is built for it. -/
def firestore (docs : Documents) (fault : Option JSValue) : Firestore where
  docThrows := fun _ doc =>
    match doc with
    | .string _ => none
    | _ => some invalidPath
  get := fun collection doc =>
    match fault, doc with
    | some error, _ => .rejected error
    | none, .string id =>
      match docs collection id with
      | some fields => .resolved ⟨true, .object fields⟩
      | none => .resolved ⟨false, .undefined⟩
    | none, _ => .rejected invalidPath

/-- The effect of one call of the client on the records: a `get` leaves them
as they are, `set` and `delete` change the record under the key. -/
def applyStoreCall (docs : Documents) : String × JSValue × StoreOp → Documents
  | (collection, .string id, .set data) =>
    fun c i => if c = collection ∧ i = id then some data else docs c i
  | (collection, .string id, .delete) =>
    fun c i => if c = collection ∧ i = id then none else docs c i
  | _ => docs

/-- The records after a run: its client calls applied in order. -/
def storeAfter (docs : Documents) (run : List Event) : Documents :=
  (storeCalls run).foldl applyStoreCall docs

/-! ## Sample data -/

/-- A store with two users: `u1` with a subscription, `u2` without the field. -/
def sampleDocs : Documents := fun collection id =>
  if collection = "users" ∧ id = "u1" then
    some [("email", .string "u1@example.org"), ("subscriptionStatus", .string "Pro")]
  else if collection = "users" ∧ id = "u2" then
    some [("email", .string "u2@example.org")]
  else none

/-- A process whose `WORKER_SECRET` is set. -/
def sampleEnv : ProcessEnv := ⟨some "s3cr3t"⟩

/-- A request carrying `secret` in its `x-secret-key` header and `uid` in its
body. -/
def sampleRequest (secret : String) (uid : JSValue) : Request :=
  ⟨[("content-type", "application/json"), ("x-secret-key", secret)],
   .object [("uid", uid)]⟩

/-- A network failure of the client. -/
def unavailable : JSValue :=
  .object [("name", .string "Error"), ("code", .number (.finite false 14 0))]

/-- A request with the secret of `sampleEnv` for which no body was parsed. -/
def bodylessRequest : Request :=
  ⟨[("x-secret-key", "s3cr3t")], .undefined⟩

/-- A client that lets any key through and always resolves to one record whose
`subscriptionStatus` is the empty string. -/
def emptyStatusClient : Firestore where
  docThrows := fun _ _ => none
  get := fun _ _ => .resolved ⟨true, .object [("subscriptionStatus", .string "")]⟩

/-! ## The access gate -/

/-- The gate produces one of two runs: reject with 403 when the header and the
configured secret differ as optional strings, call `next` otherwise. -/
theorem checkAuth_run (env : ProcessEnv) (req : Request) :
    (req.headers.lookup "x-secret-key" = env.WORKER_SECRET ∧ checkAuth env req = [.next]) ∨
    (req.headers.lookup "x-secret-key" ≠ env.WORKER_SECRET ∧
      checkAuth env req = [.respond 403 (errorEnvelope "Forbidden")]) := by
  unfold checkAuth
  by_cases h : req.headers.lookup "x-secret-key" = env.WORKER_SECRET
  · left; simp [h]
  · right; simp [h]

/-- A request whose header equals the configured secret reaches the handler:
the run is `next` followed by the handler's run. -/
theorem postGetUserData_of_eq (env : ProcessEnv) (db : Firestore) (req : Request)
    (h : req.headers.lookup "x-secret-key" = env.WORKER_SECRET) :
    postGetUserData env db req = .next :: getUserData db req := by
  simp [postGetUserData, checkAuth, h, Event.isNext]

/-- A request whose header differs from the configured secret stops at the
gate. -/
theorem postGetUserData_of_ne (env : ProcessEnv) (db : Firestore) (req : Request)
    (h : req.headers.lookup "x-secret-key" ≠ env.WORKER_SECRET) :
    postGetUserData env db req = [.respond 403 (errorEnvelope "Forbidden")] := by
  simp [postGetUserData, checkAuth, h, Event.isNext]

/-- C2: `checkAuth` calls `next` exactly once and writes no response if and
only if the `x-secret-key` header equals the configured secret (an absent
header and an unset secret both being `undefined`); when they are equal the run
is that one call and nothing else, and in every other case the run is the 403
response and nothing else: no call of `next`, no log line, no store call. -/
theorem checkAuth_forwards_iff (env : ProcessEnv) (req : Request) :
    ((nextCalls (checkAuth env req) = 1 ∧ responses (checkAuth env req) = []) ↔
        req.headers.lookup "x-secret-key" = env.WORKER_SECRET) ∧
    (req.headers.lookup "x-secret-key" = env.WORKER_SECRET →
        checkAuth env req = [.next]) ∧
    (req.headers.lookup "x-secret-key" ≠ env.WORKER_SECRET →
        checkAuth env req = [.respond 403 (errorEnvelope "Forbidden")] ∧
        nextCalls (checkAuth env req) = 0 ∧
        logged (checkAuth env req) = [] ∧
        storeCalls (checkAuth env req) = []) := by
  rcases checkAuth_run env req with ⟨h, hrun⟩ | ⟨h, hrun⟩
  · refine ⟨?_, fun _ => hrun, fun hne => absurd h hne⟩
    simp [hrun, h, nextCalls, responses, Event.isNext]
  · refine ⟨?_, fun heq => absurd heq h, fun _ => ?_⟩
    · simp [hrun, h, nextCalls, responses, Event.isNext]
    · simp [hrun, nextCalls, logged, storeCalls, Event.isNext]

/-- The gate at four concrete requests: header and secret both absent, equal
strings, a missing header against a set secret, two different strings. -/
theorem checkAuth_forwards_iff_witness :
    checkAuth ⟨none⟩ ⟨[], .object []⟩ = [.next] ∧
    checkAuth ⟨some "s3cr3t"⟩ ⟨[("x-secret-key", "s3cr3t")], .object []⟩ = [.next] ∧
    checkAuth ⟨some "s3cr3t"⟩ ⟨[], .object []⟩ = [.respond 403 (errorEnvelope "Forbidden")] ∧
    checkAuth ⟨some "s3cr3t"⟩ ⟨[("x-secret-key", "S3CR3T")], .object []⟩ =
      [.respond 403 (errorEnvelope "Forbidden")] :=
  ⟨(checkAuth_forwards_iff ⟨none⟩ ⟨[], .object []⟩).2.1 rfl,
   (checkAuth_forwards_iff ⟨some "s3cr3t"⟩ ⟨[("x-secret-key", "s3cr3t")], .object []⟩).2.1
      (by decide),
   ((checkAuth_forwards_iff ⟨some "s3cr3t"⟩ ⟨[], .object []⟩).2.2 (by decide)).1,
   ((checkAuth_forwards_iff ⟨some "s3cr3t"⟩ ⟨[("x-secret-key", "S3CR3T")], .object []⟩).2.2
      (by decide)).1⟩

/-! ## The handler -/

/-- A body that is neither `undefined` nor `null` can be destructured. -/
theorem getProp_ok (v : JSValue) (key : String) (hu : v ≠ .undefined) (hn : v ≠ .null) :
    ∃ member, getProp v key = .ok member := by
  cases v with
  | undefined => exact absurd rfl hu
  | null => exact absurd rfl hn
  | object fields => exact ⟨getField fields key, rfl⟩
  | bool b => exact ⟨.undefined, rfl⟩
  | number n => exact ⟨.undefined, rfl⟩
  | string s => exact ⟨.undefined, rfl⟩
  | array items => exact ⟨.undefined, rfl⟩

/-- What the destructuring of line 46 throws escapes the handler. -/
theorem getUserData_of_throw (db : Firestore) (req : Request) (error : JSValue)
    (hbody : getProp req.body "uid" = .error error) :
    getUserData db req = [.uncaught error] := by
  simp [getUserData, hbody]

/-- The handler stops at validation when `uid` is falsy. -/
theorem getUserData_of_falsy (db : Firestore) (req : Request) (uid : JSValue)
    (hbody : getProp req.body "uid" = .ok uid) (huid : uid.truthy = false) :
    getUserData db req = [.respond 400 (errorEnvelope "User ID (uid) is required.")] := by
  simp [getUserData, hbody, huid]

/-- With a truthy `uid` for which no reference can be built, the handler goes
to the `catch` block without a read. -/
theorem getUserData_of_refused (db : Firestore) (req : Request) (uid error : JSValue)
    (hbody : getProp req.body "uid" = .ok uid) (huid : uid.truthy = true)
    (hdoc : db.docThrows "users" uid = some error) :
    getUserData db req = catchBlock error := by
  simp [getUserData, hbody, huid, hdoc]

/-- With a truthy `uid` for which the reference is built, the handler issues
the read and goes on by its outcome. -/
theorem getUserData_of_accepted (db : Firestore) (req : Request) (uid : JSValue)
    (hbody : getProp req.body "uid" = .ok uid) (huid : uid.truthy = true)
    (hdoc : db.docThrows "users" uid = none) :
    getUserData db req = readAndRespond db uid := by
  simp [getUserData, hbody, huid, hdoc]

/-- Every run of the read has one of three shapes after the `get`. -/
theorem readAndRespond_shape (db : Firestore) (uid : JSValue) :
    (∃ error, readAndRespond db uid = .store "users" uid .get :: catchBlock error) ∨
    readAndRespond db uid =
        [.store "users" uid .get,
         .respond 404 (errorEnvelope "User data not found in Firestore.")] ∨
    (∃ s, s.truthy = true ∧ readAndRespond db uid =
        [.store "users" uid .get,
         .respond 200 (.object [("status", .string "success"), ("subscriptionStatus", s)])]) := by
  unfold readAndRespond
  cases hread : db.get "users" uid with
  | rejected error => left; exact ⟨error, rfl⟩
  | resolved userDoc =>
    cases hex : userDoc.exists
    · right; left; simp [hex]
    · cases hprop : getProp userDoc.data "subscriptionStatus" with
      | error error => left; exact ⟨error, by simp [hex, hprop]⟩
      | ok v =>
        right; right
        cases hv : v.truthy
        · exact ⟨.string "Free", by simp [JSValue.truthy], by simp [hex, hprop, hv]⟩
        · exact ⟨v, hv, by simp [hex, hprop, hv]⟩

/-- Every run of the handler has one of five shapes. -/
theorem getUserData_shape (db : Firestore) (req : Request) :
    (∃ error, getProp req.body "uid" = .error error ∧
        getUserData db req = [.uncaught error]) ∨
    getUserData db req = [.respond 400 (errorEnvelope "User ID (uid) is required.")] ∨
    (∃ uid attempt error, getProp req.body "uid" = .ok uid ∧
        (attempt = [] ∨ attempt = [.store "users" uid .get]) ∧
        getUserData db req = attempt ++ catchBlock error) ∨
    (∃ uid, getProp req.body "uid" = .ok uid ∧ getUserData db req =
        [.store "users" uid .get,
         .respond 404 (errorEnvelope "User data not found in Firestore.")]) ∨
    (∃ uid s, getProp req.body "uid" = .ok uid ∧ s.truthy = true ∧ getUserData db req =
        [.store "users" uid .get,
         .respond 200 (.object [("status", .string "success"), ("subscriptionStatus", s)])]) := by
  cases hbody : getProp req.body "uid" with
  | error error => left; exact ⟨error, rfl, getUserData_of_throw db req error hbody⟩
  | ok uid =>
    right
    cases huid : uid.truthy
    · left; exact getUserData_of_falsy db req uid hbody huid
    · right
      cases hdoc : db.docThrows "users" uid with
      | some error =>
        left
        exact ⟨uid, [], error, rfl, Or.inl rfl,
          by simp [getUserData_of_refused db req uid error hbody huid hdoc]⟩
      | none =>
        rw [getUserData_of_accepted db req uid hbody huid hdoc]
        rcases readAndRespond_shape db uid with ⟨error, hrun⟩ | hrun | ⟨s, hs, hrun⟩
        · left; exact ⟨uid, [.store "users" uid .get], error, rfl, Or.inr rfl, by simp [hrun]⟩
        · right; left; exact ⟨uid, rfl, hrun⟩
        · right; right; exact ⟨uid, s, rfl, hs, hrun⟩

/-- The falsy values: `undefined`, `null`, `false`, the empty string, `NaN`
and the two zeros; a member that is absent reads as `undefined`. -/
theorem truthy_eq_false_iff (v : JSValue) :
    v.truthy = false ↔
      v = .undefined ∨ v = .null ∨ v = .bool false ∨ v = .string "" ∨
      v = .number .nan ∨ ∃ negative exponent, v = .number (.finite negative 0 exponent) := by
  cases v with
  | number n => cases n <;> simp [JSValue.truthy, JSNumber.truthy]
  | _ => simp [JSValue.truthy]

/-- The only operation a run of the route calls on a reference, if any, is one
`get` on `users`. -/
theorem storeCalls_postGetUserData (env : ProcessEnv) (db : Firestore) (req : Request) :
    storeCalls (postGetUserData env db req) = [] ∨
    ∃ uid, storeCalls (postGetUserData env db req) = [("users", uid, .get)] := by
  rcases checkAuth_run env req with ⟨h, -⟩ | ⟨h, -⟩
  · rw [postGetUserData_of_eq env db req h]
    rcases getUserData_shape db req with ⟨error, -, hrun⟩ | hrun |
      ⟨uid, attempt, error, -, hattempt, hrun⟩ | ⟨uid, -, hrun⟩ | ⟨uid, s, -, -, hrun⟩
    · left; simp [hrun, storeCalls]
    · left; simp [hrun, storeCalls]
    · rcases hattempt with rfl | rfl
      · left; simp [hrun, storeCalls, catchBlock]
      · right; exact ⟨uid, by simp [hrun, storeCalls, catchBlock]⟩
    · right; exact ⟨uid, by simp [hrun, storeCalls]⟩
    · right; exact ⟨uid, by simp [hrun, storeCalls]⟩
  · left; simp [postGetUserData_of_ne env db req h, storeCalls]

/-- A run of the route leaves the records of any store as they were. -/
theorem storeAfter_postGetUserData (env : ProcessEnv) (db : Firestore) (req : Request)
    (docs : Documents) :
    storeAfter docs (postGetUserData env db req) = docs := by
  rcases storeCalls_postGetUserData env db req with h | ⟨uid, h⟩ <;>
    simp [storeAfter, h, applyStoreCall]

/-! ## The claims -/

/-- C1, evaluated where it fails: with `WORKER_SECRET` unset, a request without
the `x-secret-key` header is not answered 403; the gate calls `next`, the
handler runs, the store is read and the record's status is returned with
HTTP 200. -/
theorem missing_header_admitted_when_secret_unset :
    postGetUserData ⟨none⟩ (firestore sampleDocs none)
        ⟨[("content-type", "application/json")], .object [("uid", .string "u1")]⟩ =
      [.next,
       .store "users" (.string "u1") .get,
       .respond 200 (.object
         [("status", .string "success"), ("subscriptionStatus", .string "Pro")])] := by
  simp [postGetUserData, checkAuth, Event.isNext, getUserData, readAndRespond, getField,
    JSValue.truthy, firestore, sampleDocs, getProp, List.lookup]

/-- C3: a request with the correct secret whose body yields an absent or falsy
`uid` is answered 400 with the envelope `User ID (uid) is required.`, once, and
the store is never called. -/
theorem falsy_uid_rejected (env : ProcessEnv) (db : Firestore) (req : Request)
    (uid : JSValue)
    (hsecret : req.headers.lookup "x-secret-key" = env.WORKER_SECRET)
    (hbody : getProp req.body "uid" = .ok uid)
    (huid : uid.truthy = false) :
    postGetUserData env db req =
      [.next, .respond 400 (errorEnvelope "User ID (uid) is required.")] ∧
    responses (postGetUserData env db req) =
      [(400, .object [("status", .string "error"),
                      ("message", .string "User ID (uid) is required.")])] ∧
    storeCalls (postGetUserData env db req) = [] := by
  rw [postGetUserData_of_eq env db req hsecret, getUserData_of_falsy db req uid hbody huid]
  simp [responses, storeCalls, errorEnvelope]

/-- The validation at the six kinds of missing or empty `uid`: no member, and
the members `undefined`, `null`, the empty string, `0` and `false`. -/
theorem falsy_uid_rejected_witness :
    (∀ uid ∈ [JSValue.undefined, .null, .string "", .number (.finite false 0 0), .bool false],
      responses (postGetUserData sampleEnv (firestore sampleDocs none)
          (sampleRequest "s3cr3t" uid)) =
        [(400, .object [("status", .string "error"),
                        ("message", .string "User ID (uid) is required.")])]) ∧
    postGetUserData sampleEnv (firestore sampleDocs none)
        ⟨[("x-secret-key", "s3cr3t")], .object []⟩ =
      [.next, .respond 400 (errorEnvelope "User ID (uid) is required.")] := by
  refine ⟨?_, (falsy_uid_rejected sampleEnv _ ⟨[("x-secret-key", "s3cr3t")], .object []⟩
    .undefined rfl rfl rfl).1⟩
  intro uid huid
  refine (falsy_uid_rejected sampleEnv _ (sampleRequest "s3cr3t" uid) uid rfl rfl ?_).2.1
  simp only [List.mem_cons, List.mem_singleton, List.not_mem_nil, or_false] at huid
  rcases huid with h | h | h | h | h <;> subst h <;> rfl

/-- C4: with the correct secret and a truthy `uid`, when the read goes through
and resolves to an existing record whose `subscriptionStatus` is a truthy value
`s`, the response is 200 with the payload of exactly the two members
`status: "success"` and `subscriptionStatus: s`. -/
theorem stored_status_returned (env : ProcessEnv) (db : Firestore) (req : Request)
    (uid : JSValue) (fields : Fields) (s : JSValue)
    (hsecret : req.headers.lookup "x-secret-key" = env.WORKER_SECRET)
    (hbody : getProp req.body "uid" = .ok uid)
    (huid : uid.truthy = true)
    (hdoc : db.docThrows "users" uid = none)
    (hread : db.get "users" uid = .resolved ⟨true, .object fields⟩)
    (hfield : getField fields "subscriptionStatus" = s)
    (hs : s.truthy = true) :
    postGetUserData env db req =
      [.next,
       .store "users" uid .get,
       .respond 200 (.object [("status", .string "success"), ("subscriptionStatus", s)])] ∧
    responses (postGetUserData env db req) =
      [(200, .object [("status", .string "success"), ("subscriptionStatus", s)])] := by
  rw [postGetUserData_of_eq env db req hsecret,
    getUserData_of_accepted db req uid hbody huid hdoc]
  simp [readAndRespond, hread, getProp, hfield, hs, responses]

/-- The record of `u1` holds `"Pro"` beside an `email`; only the status is
returned. -/
theorem stored_status_returned_witness :
    responses (postGetUserData sampleEnv (firestore sampleDocs none)
        (sampleRequest "s3cr3t" (.string "u1"))) =
      [(200, .object [("status", .string "success"), ("subscriptionStatus", .string "Pro")])] :=
  (stored_status_returned sampleEnv (firestore sampleDocs none)
    (sampleRequest "s3cr3t" (.string "u1")) (.string "u1")
    [("email", .string "u1@example.org"), ("subscriptionStatus", .string "Pro")]
    (.string "Pro") rfl rfl rfl rfl rfl rfl rfl).2

/-- C5: with the correct secret and a truthy `uid`, when the read goes through
and resolves to an existing record whose `subscriptionStatus` is absent or
falsy, the response is 200 with `status: "success"` and
`subscriptionStatus: "Free"`; and on every run whatsoever a 200 response
carries a truthy `subscriptionStatus`. -/
theorem default_substitution :
    (∀ (env : ProcessEnv) (db : Firestore) (req : Request) (uid : JSValue) (fields : Fields),
      req.headers.lookup "x-secret-key" = env.WORKER_SECRET →
      getProp req.body "uid" = .ok uid →
      uid.truthy = true →
      db.docThrows "users" uid = none →
      db.get "users" uid = .resolved ⟨true, .object fields⟩ →
      (getField fields "subscriptionStatus").truthy = false →
      postGetUserData env db req =
        [.next,
         .store "users" uid .get,
         .respond 200 (.object
           [("status", .string "success"), ("subscriptionStatus", .string "Free")])]) ∧
    (∀ (env : ProcessEnv) (db : Firestore) (req : Request) (body : JSValue),
      (200, body) ∈ responses (postGetUserData env db req) →
      ∃ s, body = .object [("status", .string "success"), ("subscriptionStatus", s)] ∧
        s.truthy = true) := by
  constructor
  · intro env db req uid fields hsecret hbody huid hdoc hread hfield
    rw [postGetUserData_of_eq env db req hsecret,
      getUserData_of_accepted db req uid hbody huid hdoc]
    simp [readAndRespond, hread, getProp, hfield]
  · intro env db req body hmem
    rcases checkAuth_run env req with ⟨h, -⟩ | ⟨h, -⟩
    · rw [postGetUserData_of_eq env db req h] at hmem
      rcases getUserData_shape db req with ⟨error, -, hrun⟩ | hrun |
        ⟨uid, attempt, error, -, hattempt, hrun⟩ | ⟨uid, -, hrun⟩ | ⟨uid, s, -, hs, hrun⟩
      · simp [hrun, responses] at hmem
      · simp [hrun, responses] at hmem
      · rcases hattempt with rfl | rfl <;> simp [hrun, responses, catchBlock] at hmem
      · simp [hrun, responses] at hmem
      · refine ⟨s, ?_, hs⟩
        simpa [hrun, responses] using hmem
    · simp [postGetUserData_of_ne env db req h, responses] at hmem

/-- The record of `u2` has no `subscriptionStatus`, and a record may hold the
empty string there: both are answered `"Free"`. -/
theorem default_substitution_witness :
    postGetUserData sampleEnv (firestore sampleDocs none)
        (sampleRequest "s3cr3t" (.string "u2")) =
      [.next,
       .store "users" (.string "u2") .get,
       .respond 200 (.object
         [("status", .string "success"), ("subscriptionStatus", .string "Free")])] ∧
    postGetUserData sampleEnv emptyStatusClient (sampleRequest "s3cr3t" (.string "u1")) =
      [.next,
       .store "users" (.string "u1") .get,
       .respond 200 (.object
         [("status", .string "success"), ("subscriptionStatus", .string "Free")])] :=
  ⟨default_substitution.1 sampleEnv (firestore sampleDocs none)
      (sampleRequest "s3cr3t" (.string "u2")) (.string "u2")
      [("email", .string "u2@example.org")] rfl rfl rfl rfl rfl rfl,
   default_substitution.1 sampleEnv emptyStatusClient
      (sampleRequest "s3cr3t" (.string "u1")) (.string "u1")
      [("subscriptionStatus", .string "")] rfl rfl rfl rfl rfl rfl⟩

/-- C6: with the correct secret and a truthy `uid`, when the read goes through
and resolves to a snapshot that does not exist, the response is 404 with the
envelope `User data not found in Firestore.`, whose payload has no
`subscriptionStatus` member. -/
theorem missing_record_not_found (env : ProcessEnv) (db : Firestore) (req : Request)
    (uid : JSValue) (snapshot : DocumentSnapshot)
    (hsecret : req.headers.lookup "x-secret-key" = env.WORKER_SECRET)
    (hbody : getProp req.body "uid" = .ok uid)
    (huid : uid.truthy = true)
    (hdoc : db.docThrows "users" uid = none)
    (hread : db.get "users" uid = .resolved snapshot)
    (hmissing : snapshot.exists = false) :
    postGetUserData env db req =
      [.next,
       .store "users" uid .get,
       .respond 404 (errorEnvelope "User data not found in Firestore.")] ∧
    responses (postGetUserData env db req) =
      [(404, .object [("status", .string "error"),
                      ("message", .string "User data not found in Firestore.")])] ∧
    (∀ response ∈ responses (postGetUserData env db req),
      hasOwnProperty response.2 "subscriptionStatus" = false) := by
  rw [postGetUserData_of_eq env db req hsecret,
    getUserData_of_accepted db req uid hbody huid hdoc]
  simp [readAndRespond, hread, hmissing, responses, errorEnvelope, hasOwnProperty, List.lookup]

/-- The sample store holds no record for `u3`. -/
theorem missing_record_not_found_witness :
    responses (postGetUserData sampleEnv (firestore sampleDocs none)
        (sampleRequest "s3cr3t" (.string "u3"))) =
      [(404, .object [("status", .string "error"),
                      ("message", .string "User data not found in Firestore.")])] :=
  (missing_record_not_found sampleEnv (firestore sampleDocs none)
    (sampleRequest "s3cr3t" (.string "u3")) (.string "u3") ⟨false, .undefined⟩
    rfl rfl rfl rfl rfl rfl).2.1

/-- C7: with the correct secret and a truthy `uid`, when the read throws or
rejects with an error `e₁` (at building the reference or at `get()`), the
response is 500 with the envelope `Internal Server Error`, `e₁` is handed to
`console.error` after the label `Firestore Error:`, and the responses are the
same as for any other error `e₂`. -/
theorem read_failure_generic (env : ProcessEnv) (db₁ db₂ : Firestore) (req : Request)
    (uid e₁ e₂ : JSValue)
    (hsecret : req.headers.lookup "x-secret-key" = env.WORKER_SECRET)
    (hbody : getProp req.body "uid" = .ok uid)
    (huid : uid.truthy = true)
    (hfail₁ : db₁.docThrows "users" uid = some e₁ ∨
      (db₁.docThrows "users" uid = none ∧ db₁.get "users" uid = .rejected e₁))
    (hfail₂ : db₂.docThrows "users" uid = some e₂ ∨
      (db₂.docThrows "users" uid = none ∧ db₂.get "users" uid = .rejected e₂)) :
    postGetUserData env db₁ req =
      .next ::
        ((if (db₁.docThrows "users" uid).isSome then [] else [.store "users" uid .get]) ++
         [.consoleError [.string "Firestore Error:", e₁],
          .respond 500 (errorEnvelope "Internal Server Error")]) ∧
    logged (postGetUserData env db₁ req) = [[.string "Firestore Error:", e₁]] ∧
    responses (postGetUserData env db₁ req) =
      [(500, .object [("status", .string "error"),
                      ("message", .string "Internal Server Error")])] ∧
    responses (postGetUserData env db₁ req) = responses (postGetUserData env db₂ req) := by
  rw [postGetUserData_of_eq env db₁ req hsecret, postGetUserData_of_eq env db₂ req hsecret]
  have h₁ : getUserData db₁ req =
      (if (db₁.docThrows "users" uid).isSome then [] else [.store "users" uid .get]) ++
        catchBlock e₁ := by
    rcases hfail₁ with hdoc | ⟨hdoc, hget⟩
    · simp [getUserData_of_refused db₁ req uid e₁ hbody huid hdoc, hdoc]
    · simp [getUserData_of_accepted db₁ req uid hbody huid hdoc, readAndRespond, hget, hdoc]
  have h₂ : responses (.next :: getUserData db₂ req) =
      [(500, errorEnvelope "Internal Server Error")] := by
    rcases hfail₂ with hdoc | ⟨hdoc, hget⟩
    · simp [getUserData_of_refused db₂ req uid e₂ hbody huid hdoc, catchBlock, responses]
    · simp [getUserData_of_accepted db₂ req uid hbody huid hdoc, readAndRespond, hget,
        catchBlock, responses]
  rw [h₂, h₁]
  cases (db₁.docThrows "users" uid).isSome <;>
    simp [catchBlock, logged, responses, errorEnvelope]

/-- Two different failures of `get()` give the same 500 payload, and the
failure of the first run is what that run logs. -/
theorem read_failure_generic_witness :
    logged (postGetUserData sampleEnv (firestore sampleDocs (some unavailable))
        (sampleRequest "s3cr3t" (.string "u1"))) = [[.string "Firestore Error:", unavailable]] ∧
    responses (postGetUserData sampleEnv (firestore sampleDocs (some unavailable))
        (sampleRequest "s3cr3t" (.string "u1"))) =
      responses (postGetUserData sampleEnv (firestore sampleDocs (some invalidPath))
        (sampleRequest "s3cr3t" (.string "u1"))) :=
  ⟨(read_failure_generic sampleEnv (firestore sampleDocs (some unavailable))
      (firestore sampleDocs (some invalidPath)) (sampleRequest "s3cr3t" (.string "u1"))
      (.string "u1") unavailable invalidPath rfl rfl rfl
      (Or.inr ⟨rfl, rfl⟩) (Or.inr ⟨rfl, rfl⟩)).2.1,
   (read_failure_generic sampleEnv (firestore sampleDocs (some unavailable))
      (firestore sampleDocs (some invalidPath)) (sampleRequest "s3cr3t" (.string "u1"))
      (.string "u1") unavailable invalidPath rfl rfl rfl
      (Or.inr ⟨rfl, rfl⟩) (Or.inr ⟨rfl, rfl⟩)).2.2.2⟩

/-- C8 as stated fails: a request with the correct secret whose `req.body` is
`undefined` passes the gate, the destructuring of line 46 throws outside the
`try`, and the gate and the handler write no response at all, hence no JSON
envelope. -/
theorem bodyless_request_no_envelope :
    postGetUserData sampleEnv (firestore sampleDocs none) bodylessRequest =
      [.next, .uncaught typeError] ∧
    responses (postGetUserData sampleEnv (firestore sampleDocs none) bodylessRequest) = [] ∧
    ¬ ∃ code body,
      responses (postGetUserData sampleEnv (firestore sampleDocs none) bodylessRequest) =
        [(code, body)] := by
  have hrun : postGetUserData sampleEnv (firestore sampleDocs none) bodylessRequest =
      [.next, .uncaught typeError] := rfl
  refine ⟨hrun, by rw [hrun]; rfl, ?_⟩
  rw [hrun]
  simp [responses]

/-- C8, amended: every run of the route for a request that the gate stops or
whose `req.body` is neither `undefined` nor `null`, whatever the header, the
body otherwise and the outcome of the read, writes exactly one response; its
payload is an object whose first member is `status`, holding `"success"` or
`"error"`; its HTTP code is one of 200, 400, 403, 404, 500; and `status` is
`"success"` exactly when the code is 200. -/
theorem one_enveloped_response (env : ProcessEnv) (db : Firestore) (req : Request)
    (hbody : req.headers.lookup "x-secret-key" ≠ env.WORKER_SECRET ∨
      (req.body ≠ .undefined ∧ req.body ≠ .null)) :
    ∃ code status rest,
      responses (postGetUserData env db req) =
        [(code, .object (("status", .string status) :: rest))] ∧
      (code = 200 ∨ code = 400 ∨ code = 403 ∨ code = 404 ∨ code = 500) ∧
      (status = "success" ∨ status = "error") ∧
      (status = "success" ↔ code = 200) := by
  rcases checkAuth_run env req with ⟨h, -⟩ | ⟨h, -⟩
  · rw [postGetUserData_of_eq env db req h]
    have hdefined : req.body ≠ .undefined ∧ req.body ≠ .null := by
      rcases hbody with hne | hdefined
      · exact absurd h hne
      · exact hdefined
    obtain ⟨member, hmember⟩ := getProp_ok req.body "uid" hdefined.1 hdefined.2
    rcases getUserData_shape db req with ⟨error, hthrow, -⟩ | hrun |
      ⟨uid, attempt, error, -, hattempt, hrun⟩ | ⟨uid, -, hrun⟩ | ⟨uid, s, -, -, hrun⟩
    · rw [hmember] at hthrow
      cases hthrow
    · exact ⟨400, "error", [("message", .string "User ID (uid) is required.")],
        by simp [hrun, responses, errorEnvelope], by simp, by simp, by decide⟩
    · refine ⟨500, "error", [("message", .string "Internal Server Error")], ?_,
        by simp, by simp, by decide⟩
      rcases hattempt with rfl | rfl <;> simp [hrun, responses, catchBlock, errorEnvelope]
    · exact ⟨404, "error", [("message", .string "User data not found in Firestore.")],
        by simp [hrun, responses, errorEnvelope], by simp, by simp, by decide⟩
    · exact ⟨200, "success", [("subscriptionStatus", s)],
        by simp [hrun, responses], by simp, by simp, by decide⟩
  · exact ⟨403, "error", [("message", .string "Forbidden")],
      by simp [postGetUserData_of_ne env db req h, responses, errorEnvelope],
      by simp, by simp, by decide⟩

/-- An array body with the correct secret, and a request without a body that
the gate stops, each get one enveloped response. -/
theorem one_enveloped_response_witness :
    (∃ code status rest,
      responses (postGetUserData sampleEnv (firestore sampleDocs none)
          ⟨[("x-secret-key", "s3cr3t")], .array [.string "u1"]⟩) =
        [(code, .object (("status", .string status) :: rest))] ∧
      (code = 200 ∨ code = 400 ∨ code = 403 ∨ code = 404 ∨ code = 500) ∧
      (status = "success" ∨ status = "error") ∧
      (status = "success" ↔ code = 200)) ∧
    (∃ code status rest,
      responses (postGetUserData sampleEnv (firestore sampleDocs none)
          ⟨[("x-secret-key", "guess")], .undefined⟩) =
        [(code, .object (("status", .string status) :: rest))] ∧
      (code = 200 ∨ code = 400 ∨ code = 403 ∨ code = 404 ∨ code = 500) ∧
      (status = "success" ∨ status = "error") ∧
      (status = "success" ↔ code = 200)) :=
  ⟨one_enveloped_response sampleEnv (firestore sampleDocs none)
      ⟨[("x-secret-key", "s3cr3t")], .array [.string "u1"]⟩
      (Or.inr ⟨by simp, by simp⟩),
   one_enveloped_response sampleEnv (firestore sampleDocs none)
      ⟨[("x-secret-key", "guess")], .undefined⟩
      (Or.inl (by decide))⟩

/-- C9 as stated fails: a request that passes the gate with the non-empty
`uid` 42 makes no read at all; the client refuses the key when the reference
is built, `get()` is never called, and the `catch` block answers 500. -/
theorem refused_key_never_read :
    postGetUserData sampleEnv (firestore sampleDocs none)
        (sampleRequest "s3cr3t" (.number (.finite false 42 0))) =
      [.next,
       .consoleError [.string "Firestore Error:", invalidPath],
       .respond 500 (errorEnvelope "Internal Server Error")] ∧
    storeCalls (postGetUserData sampleEnv (firestore sampleDocs none)
        (sampleRequest "s3cr3t" (.number (.finite false 42 0)))) = [] ∧
    storeCalls (postGetUserData sampleEnv (firestore sampleDocs none)
        (sampleRequest "s3cr3t" (.number (.finite false 42 0)))) ≠
      [("users", .number (.finite false 42 0), .get)] := by
  have hrun : postGetUserData sampleEnv (firestore sampleDocs none)
        (sampleRequest "s3cr3t" (.number (.finite false 42 0))) =
      [.next,
       .consoleError [.string "Firestore Error:", invalidPath],
       .respond 500 (errorEnvelope "Internal Server Error")] := rfl
  refine ⟨hrun, by rw [hrun]; rfl, ?_⟩
  rw [hrun]
  simp [storeCalls]

/-- C9, amended: with the correct secret and a truthy `uid` of any kind, when
the client builds the reference for `uid` the run calls exactly one operation
on it, whatever the read comes to (a record, no record, a failure): a `get` on
collection `users` under the supplied `uid`, with no `set`, no `delete` and no
second `get`; and when the client refuses `uid` the run calls no operation at
all. -/
theorem single_point_read (env : ProcessEnv) (db : Firestore) (req : Request)
    (uid : JSValue)
    (hsecret : req.headers.lookup "x-secret-key" = env.WORKER_SECRET)
    (hbody : getProp req.body "uid" = .ok uid)
    (huid : uid.truthy = true) :
    (db.docThrows "users" uid = none →
      storeCalls (postGetUserData env db req) = [("users", uid, .get)]) ∧
    (∀ error, db.docThrows "users" uid = some error →
      storeCalls (postGetUserData env db req) = []) := by
  rw [postGetUserData_of_eq env db req hsecret]
  constructor
  · intro hdoc
    rw [getUserData_of_accepted db req uid hbody huid hdoc]
    rcases readAndRespond_shape db uid with ⟨error, hrun⟩ | hrun | ⟨s, -, hrun⟩ <;>
      rw [hrun] <;> simp [storeCalls, catchBlock]
  · intro error hdoc
    rw [getUserData_of_refused db req uid error hbody huid hdoc]
    simp [storeCalls, catchBlock]

/-- String keys of two formats, with a read that fails and a read that finds
nothing, each get the one `get` under the key as given; the key 42, which the
client refuses, gets none. -/
theorem single_point_read_witness :
    storeCalls (postGetUserData sampleEnv (firestore sampleDocs (some unavailable))
        (sampleRequest "s3cr3t" (.string "a/b/c"))) =
      [("users", .string "a/b/c", .get)] ∧
    storeCalls (postGetUserData sampleEnv (firestore sampleDocs none)
        (sampleRequest "s3cr3t" (.string " "))) =
      [("users", .string " ", .get)] ∧
    storeCalls (postGetUserData sampleEnv (firestore sampleDocs none)
        (sampleRequest "s3cr3t" (.number (.finite false 42 0)))) = [] :=
  ⟨(single_point_read sampleEnv (firestore sampleDocs (some unavailable))
      (sampleRequest "s3cr3t" (.string "a/b/c")) (.string "a/b/c") rfl rfl rfl).1 rfl,
   (single_point_read sampleEnv (firestore sampleDocs none)
      (sampleRequest "s3cr3t" (.string " ")) (.string " ") rfl rfl rfl).1 rfl,
   (single_point_read sampleEnv (firestore sampleDocs none)
      (sampleRequest "s3cr3t" (.number (.finite false 42 0)))
      (.number (.finite false 42 0)) rfl rfl rfl).2 invalidPath rfl⟩

/-- C10 as stated fails: the same request, under the same secret and over the
same records, is answered 200 when the read goes through and 500 when the read
attempt fails. -/
theorem same_records_different_response :
    responses (postGetUserData sampleEnv (firestore sampleDocs none)
        (sampleRequest "s3cr3t" (.string "u1"))) =
      [(200, .object [("status", .string "success"), ("subscriptionStatus", .string "Pro")])] ∧
    responses (postGetUserData sampleEnv (firestore sampleDocs (some unavailable))
        (sampleRequest "s3cr3t" (.string "u1"))) =
      [(500, .object [("status", .string "error"),
                      ("message", .string "Internal Server Error")])] ∧
    responses (postGetUserData sampleEnv (firestore sampleDocs none)
        (sampleRequest "s3cr3t" (.string "u1"))) ≠
      responses (postGetUserData sampleEnv (firestore sampleDocs (some unavailable))
        (sampleRequest "s3cr3t" (.string "u1"))) := by
  have h₁ : responses (postGetUserData sampleEnv (firestore sampleDocs none)
        (sampleRequest "s3cr3t" (.string "u1"))) =
      [(200, .object [("status", .string "success"),
                      ("subscriptionStatus", .string "Pro")])] := rfl
  have h₂ : responses (postGetUserData sampleEnv (firestore sampleDocs (some unavailable))
        (sampleRequest "s3cr3t" (.string "u1"))) =
      [(500, .object [("status", .string "error"),
                      ("message", .string "Internal Server Error")])] := rfl
  refine ⟨h₁, h₂, ?_⟩
  rw [h₁, h₂]
  simp

/-- C10, amended: a request handled twice under the same secret, the second
time over the records the first handling left, is answered the same both times
(HTTP code and payload) provided the two read attempts both fail or both go
through; and handling a request leaves the records unchanged. -/
theorem repeated_lookup_same_response (env : ProcessEnv) (docs : Documents)
    (fault₁ fault₂ : Option JSValue) (req : Request)
    (houtcome : fault₁.isSome = fault₂.isSome) :
    storeAfter docs (postGetUserData env (firestore docs fault₁) req) = docs ∧
    responses (postGetUserData env
        (firestore (storeAfter docs (postGetUserData env (firestore docs fault₁) req)) fault₂)
        req) =
      responses (postGetUserData env (firestore docs fault₁) req) := by
  refine ⟨storeAfter_postGetUserData env _ req docs, ?_⟩
  rw [storeAfter_postGetUserData env _ req docs]
  rcases checkAuth_run env req with ⟨h, -⟩ | ⟨h, -⟩
  · rw [postGetUserData_of_eq env _ req h, postGetUserData_of_eq env _ req h]
    cases hbody : getProp req.body "uid" with
    | error error =>
      rw [getUserData_of_throw _ req error hbody, getUserData_of_throw _ req error hbody]
    | ok uid =>
      cases huid : uid.truthy
      · rw [getUserData_of_falsy _ req uid hbody huid, getUserData_of_falsy _ req uid hbody huid]
      · cases hdoc : (firestore docs fault₁).docThrows "users" uid with
        | some error =>
          rw [getUserData_of_refused (firestore docs fault₁) req uid error hbody huid hdoc,
            getUserData_of_refused (firestore docs fault₂) req uid error hbody huid hdoc]
        | none =>
          rw [getUserData_of_accepted (firestore docs fault₁) req uid hbody huid hdoc,
            getUserData_of_accepted (firestore docs fault₂) req uid hbody huid hdoc]
          cases fault₁ <;> cases fault₂ <;> simp at houtcome
          · rfl
          · simp [readAndRespond, firestore, catchBlock, responses]
  · rw [postGetUserData_of_ne env _ req h, postGetUserData_of_ne env _ req h]

/-- Two lookups of `u1` that both go through are both answered `"Pro"`, two
that fail with different errors are both answered 500, and the records are the
same afterwards. -/
theorem repeated_lookup_same_response_witness :
    storeAfter sampleDocs (postGetUserData sampleEnv (firestore sampleDocs none)
        (sampleRequest "s3cr3t" (.string "u1"))) = sampleDocs ∧
    responses (postGetUserData sampleEnv
        (firestore (storeAfter sampleDocs (postGetUserData sampleEnv
          (firestore sampleDocs (some unavailable)) (sampleRequest "s3cr3t" (.string "u1"))))
          (some invalidPath))
        (sampleRequest "s3cr3t" (.string "u1"))) =
      responses (postGetUserData sampleEnv (firestore sampleDocs (some unavailable))
        (sampleRequest "s3cr3t" (.string "u1"))) :=
  ⟨(repeated_lookup_same_response sampleEnv sampleDocs none none
      (sampleRequest "s3cr3t" (.string "u1")) rfl).1,
   (repeated_lookup_same_response sampleEnv sampleDocs (some unavailable) (some invalidPath)
      (sampleRequest "s3cr3t" (.string "u1")) rfl).2⟩

end Rotrail
